import Mathlib

/-!
# Verification of the Marketing CRM API

A shallow embedding of the repository's two source files:

* `src/schemas.py` — pydantic models `Client`, `Website`, `SeoMetric`, `GmbProfile`
  with field constraints (`ge`/`le` bounds on numeric fields), used by FastAPI to
  validate request bodies (pydantic's default configuration ignores undeclared
  fields);
* `src/main.py` — the FastAPI endpoints: `create_client`, `create_website`,
  `create_seo_metric`, `create_gmb_profile`, `list_clients`, `get_client_detail`,
  `delete_client`, together with the helper `to_object_id`.

The MongoDB store is modelled as four lists of documents (one per collection, in
insertion order).  `bson.ObjectId(id_str)` accepts exactly the 24-character
hexadecimal strings (case-insensitive) and `str(oid)` renders the canonical
lowercase form; we model an `ObjectId` by that canonical string.  Mongo's
`find_one`/`delete_one` act on the first matching document, `find`/`delete_many`
on all matching documents, and `.sort("date", -1)` sorts descending by the
`date` field with missing values ordered below every string (BSON order), with
string comparison being bytewise; we model the sort with a stable insertion
sort under that order.  `HTTPException(status, detail)` is modelled by the
`Err` type and fallible handlers return `Except Err`.  Handlers that write take
the store-assigned identifier of the new document as an explicit argument and
return the new store alongside the response, so that the store mutation
performed by a failing call is observable.

The module `database.py` (providing `create_document` and `get_documents`) is
not part of the sources; its definitions below are modelled from the spec and
say so in their doc comments.

Field format validation of `EmailStr`/`HttpUrl` is not modelled: no claim
depends on e-mail/URL syntax, so those fields are carried as plain strings.
Pydantic's numeric `float` fields are modelled as rationals; the range checks
`ge`/`le` only compare values, for which rational order is faithful.
-/

/-! ## ObjectId: 24 hex digits, canonicalised to lowercase -/

/-- Is `c` an ASCII hexadecimal digit (`0-9`, `a-f`, `A-F`)?  This is the
character set accepted by `bytes.fromhex` inside `bson.ObjectId.__validate`. -/
def isHexDigitChar (c : Char) : Bool :=
  (48 ≤ c.toNat && c.toNat ≤ 57) || (97 ≤ c.toNat && c.toNat ≤ 102) ||
    (65 ≤ c.toNat && c.toNat ≤ 70)

/-- A string is accepted by `bson.ObjectId` iff it consists of exactly 24
hexadecimal digits. -/
def isValidObjectIdString (s : String) : Bool :=
  s.data.length == 24 && s.data.all isHexDigitChar

/-- Lowercase one hexadecimal digit (uppercase `A`–`F` map to `a`–`f`). -/
def hexLowerChar (c : Char) : Char :=
  if c = 'A' then 'a' else if c = 'B' then 'b' else if c = 'C' then 'c'
  else if c = 'D' then 'd' else if c = 'E' then 'e' else if c = 'F' then 'f'
  else c

/-- The canonical (lowercase) text form of a well-formed ObjectId string:
`str(ObjectId(s))` in Python renders the 12 bytes back as lowercase hex. -/
def canonOid (s : String) : String := ⟨s.data.map hexLowerChar⟩

/-- An ObjectId, represented by its canonical lowercase-hex text form. -/
abbrev ObjectId := String

/-- `str(oid)`: the external text form of a store identifier. -/
def oidToString (o : ObjectId) : String := o

/-- HTTP error response, as raised by `HTTPException(status_code, detail)`. -/
structure Err where
  status : Nat
  detail : String
deriving DecidableEq

deriving instance DecidableEq for Except

/-- `to_object_id` (src/main.py lines 25–29): parse the string into an
ObjectId, or raise `HTTPException(400, "Invalid object id")`. -/
def to_object_id (id_str : String) : Except Err ObjectId :=
  if isValidObjectIdString id_str then .ok (canonOid id_str)
  else .error ⟨400, "Invalid object id"⟩

/-! ## Documents and the store -/

/-- A stored document of the `client` collection: the fields of the `Client`
schema (src/schemas.py lines 12–22) plus the store-assigned `_id`. -/
structure ClientDoc where
  _id : ObjectId
  name : String
  contact_name : Option String := none
  email : Option String := none
  phone : Option String := none
  industry : Option String := none
  notes : Option String := none
deriving DecidableEq

/-- A stored document of the `website` collection (`Website` schema,
src/schemas.py lines 24–33). -/
structure WebsiteDoc where
  _id : ObjectId
  client_id : String
  url : String
  cms : Option String := none
  status : Option String := none
  notes : Option String := none
deriving DecidableEq

/-- A stored document of the `seometric` collection (`SeoMetric` schema,
src/schemas.py lines 35–46). -/
structure SeoDoc where
  _id : ObjectId
  client_id : String
  date : Option String := none
  organic_traffic : Option Int := none
  keywords_top3 : Option Int := none
  keywords_top10 : Option Int := none
  domain_rating : Option ℚ := none
  notes : Option String := none
deriving DecidableEq

/-- A stored document of the `gmbprofile` collection (`GmbProfile` schema,
src/schemas.py lines 48–59). -/
structure GmbDoc where
  _id : ObjectId
  client_id : String
  listing_name : Option String := none
  url : Option String := none
  avg_rating : Option ℚ := none
  reviews_count : Option Int := none
  primary_category : Option String := none
  notes : Option String := none
deriving DecidableEq

/-- The MongoDB database: one list per collection, in insertion order. -/
structure DB where
  client : List ClientDoc := []
  website : List WebsiteDoc := []
  seometric : List SeoDoc := []
  gmbprofile : List GmbDoc := []
deriving DecidableEq

/-- Total number of documents in the store, over all four collections. -/
def DB.size (db : DB) : Nat :=
  db.client.length + db.website.length + db.seometric.length +
    db.gmbprofile.length

/-! ## Validated request payloads (the pydantic models) -/

/-- A validated `Client` payload (src/schemas.py lines 12–22). -/
structure Client where
  name : String
  contact_name : Option String := none
  email : Option String := none
  phone : Option String := none
  industry : Option String := none
  notes : Option String := none
deriving DecidableEq

/-- A validated `Website` payload (src/schemas.py lines 24–33). -/
structure Website where
  client_id : String
  url : String
  cms : Option String := none
  status : Option String := none
  notes : Option String := none
deriving DecidableEq

/-- A validated `SeoMetric` payload (src/schemas.py lines 35–46). -/
structure SeoMetric where
  client_id : String
  date : Option String := none
  organic_traffic : Option Int := none
  keywords_top3 : Option Int := none
  keywords_top10 : Option Int := none
  domain_rating : Option ℚ := none
  notes : Option String := none
deriving DecidableEq

/-- A validated `GmbProfile` payload (src/schemas.py lines 48–59). -/
structure GmbProfile where
  client_id : String
  listing_name : Option String := none
  url : Option String := none
  avg_rating : Option ℚ := none
  reviews_count : Option Int := none
  primary_category : Option String := none
  notes : Option String := none
deriving DecidableEq

/-! ## The store access layer (`database.py`, not under src/) -/

/-- Modelled from the spec: `create_document` of `database.py` is not under
src/.  Per §4.2 of the spec it persists the validated record as one new
document carrying a fresh store-assigned identifier and returns that
identifier (stringified, per §6 all identifiers travel as strings).  This is
the `client`-collection instance; the fresh identifier is an explicit
argument. -/
def create_document_client (db : DB) (c : Client) (newId : ObjectId) :
    DB × String :=
  ({ db with client := db.client ++
      [{ _id := newId, name := c.name, contact_name := c.contact_name,
         email := c.email, phone := c.phone, industry := c.industry,
         notes := c.notes }] },
   oidToString newId)

/-- Modelled from the spec: `create_document` for the `website` collection
(see `create_document_client`). -/
def create_document_website (db : DB) (w : Website) (newId : ObjectId) :
    DB × String :=
  ({ db with website := db.website ++
      [{ _id := newId, client_id := w.client_id, url := w.url, cms := w.cms,
         status := w.status, notes := w.notes }] },
   oidToString newId)

/-- Modelled from the spec: `create_document` for the `seometric` collection
(see `create_document_client`). -/
def create_document_seometric (db : DB) (m : SeoMetric) (newId : ObjectId) :
    DB × String :=
  ({ db with seometric := db.seometric ++
      [{ _id := newId, client_id := m.client_id, date := m.date,
         organic_traffic := m.organic_traffic,
         keywords_top3 := m.keywords_top3, keywords_top10 := m.keywords_top10,
         domain_rating := m.domain_rating, notes := m.notes }] },
   oidToString newId)

/-- Modelled from the spec: `create_document` for the `gmbprofile` collection
(see `create_document_client`). -/
def create_document_gmbprofile (db : DB) (g : GmbProfile) (newId : ObjectId) :
    DB × String :=
  ({ db with gmbprofile := db.gmbprofile ++
      [{ _id := newId, client_id := g.client_id,
         listing_name := g.listing_name, url := g.url,
         avg_rating := g.avg_rating, reviews_count := g.reviews_count,
         primary_category := g.primary_category, notes := g.notes }] },
   oidToString newId)

/-! ## Create endpoints (src/main.py lines 65–94) -/

/-- Successful response of the create endpoints: `{"id": <string>}`. -/
structure CreateResponse where
  id : String
deriving DecidableEq

/-- `create_client` (src/main.py lines 65–68): persist the validated client,
no precondition. -/
def create_client (db : DB) (client : Client) (newId : ObjectId) :
    DB × CreateResponse :=
  let r := create_document_client db client newId
  (r.1, ⟨r.2⟩)

/-- `create_website` (src/main.py lines 70–78): parse `client_id` (400 on
failure), check the referenced client exists via `find_one` (404 if absent),
then persist. -/
def create_website (db : DB) (website : Website) (newId : ObjectId) :
    DB × Except Err CreateResponse :=
  match to_object_id website.client_id with
  | .error e => (db, .error e)
  | .ok cid =>
    if db.client.any (fun c => c._id == cid) then
      let r := create_document_website db website newId
      (r.1, .ok ⟨r.2⟩)
    else (db, .error ⟨404, "Client not found"⟩)

/-- `create_seo_metric` (src/main.py lines 80–86). -/
def create_seo_metric (db : DB) (metric : SeoMetric) (newId : ObjectId) :
    DB × Except Err CreateResponse :=
  match to_object_id metric.client_id with
  | .error e => (db, .error e)
  | .ok cid =>
    if db.client.any (fun c => c._id == cid) then
      let r := create_document_seometric db metric newId
      (r.1, .ok ⟨r.2⟩)
    else (db, .error ⟨404, "Client not found"⟩)

/-- `create_gmb_profile` (src/main.py lines 88–94). -/
def create_gmb_profile (db : DB) (profile : GmbProfile) (newId : ObjectId) :
    DB × Except Err CreateResponse :=
  match to_object_id profile.client_id with
  | .error e => (db, .error e)
  | .ok cid =>
    if db.client.any (fun c => c._id == cid) then
      let r := create_document_gmbprofile db profile newId
      (r.1, .ok ⟨r.2⟩)
    else (db, .error ⟨404, "Client not found"⟩)

/-! ## Read endpoints (src/main.py lines 97–121) -/

/-- `list_clients` (src/main.py lines 97–103): fetch every document of the
`client` collection (`get_documents` of `database.py`, modelled from the spec
§4.2 as the full collection in natural order) and stringify the `_id`s. -/
def list_clients (db : DB) : List ClientDoc :=
  db.client.map (fun it => { it with _id := oidToString it._id })

/-- Bytewise lexicographic strict order on strings, as BSON compares string
sort keys. -/
def lexLt : List Char → List Char → Bool
  | [], [] => false
  | [], _ :: _ => true
  | _ :: _, [] => false
  | c :: cs, d :: ds =>
    c.toNat < d.toNat || (c.toNat == d.toNat && lexLt cs ds)

/-- BSON order on the optional `date` sort key: a missing value sorts below
every string, strings compare bytewise. -/
def dateLeb : Option String → Option String → Bool
  | none, _ => true
  | some _, none => false
  | some a, some b => !lexLt b.data a.data

/-- The descending-`date` order used by `.sort("date", -1)` on two `seometric`
documents: `s` comes no later than `t` iff `s`'s date is at least `t`'s. -/
def seoDescRel (s t : SeoDoc) : Prop := dateLeb t.date s.date = true

instance : DecidableRel seoDescRel := fun s t => by
  unfold seoDescRel; infer_instance

/-- `.sort("date", -1)` (src/main.py line 115): stable sort of the matching
`seometric` documents, most recent date first. -/
def sortSeoByDateDesc (l : List SeoDoc) : List SeoDoc :=
  List.insertionSort seoDescRel l

/-- The response of `get_client_detail`:
`{"client": ..., "websites": [...], "seo": [...], "gmb": [...]}`. -/
structure ClientDetail where
  client : ClientDoc
  websites : List WebsiteDoc
  seo : List SeoDoc
  gmb : List GmbDoc
deriving DecidableEq

/-- `get_client_detail` (src/main.py lines 105–121): parse the path id (400 on
failure), `find_one` the client (404 if absent), then gather the dependent
documents whose `client_id` equals the raw path string, the SEO snapshots
sorted by date descending. -/
def get_client_detail (db : DB) (client_id : String) :
    Except Err ClientDetail :=
  match to_object_id client_id with
  | .error e => .error e
  | .ok cid =>
    match db.client.find? (fun c => c._id == cid) with
    | none => .error ⟨404, "Client not found"⟩
    | some c =>
      .ok { client := { c with _id := oidToString c._id },
            websites := db.website.filter (fun w => w.client_id == client_id),
            seo := sortSeoByDateDesc
              (db.seometric.filter (fun s => s.client_id == client_id)),
            gmb := db.gmbprofile.filter (fun g => g.client_id == client_id) }

/-! ## Delete endpoint (src/main.py lines 124–134) -/

/-- Successful response of `delete_client`: `{"ok": true}`. -/
structure DeleteResponse where
  ok : Bool
deriving DecidableEq

/-- `delete_client` (src/main.py lines 124–134): parse the path id (400 on
failure); `delete_one` the client with that `_id`; unconditionally
`delete_many` every `website`, `seometric` and `gmbprofile` document whose
`client_id` equals the raw path string; finally raise 404 if the client delete
matched nothing, else return `{"ok": true}`.  The mutated store is returned in
either case. -/
def delete_client (db : DB) (client_id : String) :
    DB × Except Err DeleteResponse :=
  match to_object_id client_id with
  | .error e => (db, .error e)
  | .ok cid =>
    let matched := db.client.any (fun c => c._id == cid)
    let db' : DB :=
      { client := db.client.eraseP (fun c => c._id == cid),
        website := db.website.filter (fun w => !(w.client_id == client_id)),
        seometric :=
          db.seometric.filter (fun m => !(m.client_id == client_id)),
        gmbprofile :=
          db.gmbprofile.filter (fun g => !(g.client_id == client_id)) }
    if matched then (db', .ok ⟨true⟩)
    else (db', .error ⟨404, "Client not found"⟩)

/-- Number of documents removed from the store by a `delete_client` call
(`deleted_count` of the parent delete plus the three cascade deletes). -/
def deleteClientCount (db : DB) (client_id : String) : Nat :=
  db.size - (delete_client db client_id).1.size

/-! ## Schema validation (pydantic parsing of raw request bodies)

A raw JSON body is modelled as the declared fields (with their declared
types — requests of the wrong JSON type are outside the claims) together
with `extra`, the undeclared key/value pairs present in the body. -/

/-- How a pydantic model treats undeclared fields of the body. -/
inductive ExtraFieldPolicy
  | ignoreThem
  | forbidThem
deriving DecidableEq

/-- The four schemas of src/schemas.py subclass `BaseModel` with no `Config`
or `model_config`, so pydantic's default applies: undeclared fields are
ignored (`extra` defaults to `ignore`, not `forbid`). -/
def schemaExtraPolicy : ExtraFieldPolicy := .ignoreThem

/-- Validation step for the undeclared fields of a body under a given
policy: ignored bodies always pass, forbidden ones fail with a 422
validation error when an undeclared field is present. -/
def checkExtra (policy : ExtraFieldPolicy) (e : List (String × String)) :
    Except Err Unit :=
  match policy with
  | .ignoreThem => .ok ()
  | .forbidThem =>
    if e.isEmpty then .ok ()
    else .error ⟨422, "validation error"⟩

/-- Does an optional numeric field satisfy its bound when present?
(Absent optional fields are valid.) -/
def optOk (p : α → Bool) : Option α → Bool
  | none => true
  | some x => p x

/-- Raw body of `POST /clients`. -/
structure ClientRaw where
  name : String
  contact_name : Option String := none
  email : Option String := none
  phone : Option String := none
  industry : Option String := none
  notes : Option String := none
  extra : List (String × String) := []
deriving DecidableEq

/-- Pydantic validation of a `Client` body (src/schemas.py lines 12–22): no
numeric constraints; undeclared fields handled by `schemaExtraPolicy`; the
resulting model carries only the declared fields. -/
def parse_client (r : ClientRaw) : Except Err Client :=
  match checkExtra schemaExtraPolicy r.extra with
  | .error e => .error e
  | .ok _ =>
    .ok { name := r.name, contact_name := r.contact_name, email := r.email,
          phone := r.phone, industry := r.industry, notes := r.notes }

/-- Raw body of `POST /websites`. -/
structure WebsiteRaw where
  client_id : String
  url : String
  cms : Option String := none
  status : Option String := none
  notes : Option String := none
  extra : List (String × String) := []
deriving DecidableEq

/-- Pydantic validation of a `Website` body (src/schemas.py lines 24–33). -/
def parse_website (r : WebsiteRaw) : Except Err Website :=
  match checkExtra schemaExtraPolicy r.extra with
  | .error e => .error e
  | .ok _ =>
    .ok { client_id := r.client_id, url := r.url, cms := r.cms,
          status := r.status, notes := r.notes }

/-- Raw body of `POST /seo`. -/
structure SeoMetricRaw where
  client_id : String
  date : Option String := none
  organic_traffic : Option Int := none
  keywords_top3 : Option Int := none
  keywords_top10 : Option Int := none
  domain_rating : Option ℚ := none
  notes : Option String := none
  extra : List (String × String) := []
deriving DecidableEq

/-- Pydantic validation of a `SeoMetric` body (src/schemas.py lines 35–46):
`organic_traffic`, `keywords_top3`, `keywords_top10` have `ge=0`;
`domain_rating` has `ge=0, le=100`; violations yield a 422 validation
error. -/
def parse_seo_metric (r : SeoMetricRaw) : Except Err SeoMetric :=
  match checkExtra schemaExtraPolicy r.extra with
  | .error e => .error e
  | .ok _ =>
    if optOk (fun n => 0 ≤ n) r.organic_traffic &&
        optOk (fun n => 0 ≤ n) r.keywords_top3 &&
        optOk (fun n => 0 ≤ n) r.keywords_top10 &&
        optOk (fun q => 0 ≤ q && q ≤ 100) r.domain_rating then
      .ok { client_id := r.client_id, date := r.date,
            organic_traffic := r.organic_traffic,
            keywords_top3 := r.keywords_top3,
            keywords_top10 := r.keywords_top10,
            domain_rating := r.domain_rating, notes := r.notes }
    else .error ⟨422, "validation error"⟩

/-- Raw body of `POST /gmb`. -/
structure GmbProfileRaw where
  client_id : String
  listing_name : Option String := none
  url : Option String := none
  avg_rating : Option ℚ := none
  reviews_count : Option Int := none
  primary_category : Option String := none
  notes : Option String := none
  extra : List (String × String) := []
deriving DecidableEq

/-- Pydantic validation of a `GmbProfile` body (src/schemas.py lines 48–59):
`avg_rating` has `ge=0, le=5`; `reviews_count` has `ge=0`. -/
def parse_gmb_profile (r : GmbProfileRaw) : Except Err GmbProfile :=
  match checkExtra schemaExtraPolicy r.extra with
  | .error e => .error e
  | .ok _ =>
    if optOk (fun q => 0 ≤ q && q ≤ 5) r.avg_rating &&
        optOk (fun n => 0 ≤ n) r.reviews_count then
      .ok { client_id := r.client_id, listing_name := r.listing_name,
            url := r.url, avg_rating := r.avg_rating,
            reviews_count := r.reviews_count,
            primary_category := r.primary_category, notes := r.notes }
    else .error ⟨422, "validation error"⟩

/-! ## Full POST handlers: body validation, then the endpoint -/

/-- `POST /clients` end to end: validate the body, then `create_client`. -/
def post_clients (db : DB) (r : ClientRaw) (newId : ObjectId) :
    DB × Except Err CreateResponse :=
  match parse_client r with
  | .error e => (db, .error e)
  | .ok c =>
    let s := create_client db c newId
    (s.1, .ok s.2)

/-- `POST /websites` end to end: validate the body, then `create_website`. -/
def post_websites (db : DB) (r : WebsiteRaw) (newId : ObjectId) :
    DB × Except Err CreateResponse :=
  match parse_website r with
  | .error e => (db, .error e)
  | .ok w => create_website db w newId

/-- `POST /seo` end to end: validate the body, then `create_seo_metric`. -/
def post_seo (db : DB) (r : SeoMetricRaw) (newId : ObjectId) :
    DB × Except Err CreateResponse :=
  match parse_seo_metric r with
  | .error e => (db, .error e)
  | .ok m => create_seo_metric db m newId

/-- `POST /gmb` end to end: validate the body, then `create_gmb_profile`. -/
def post_gmb (db : DB) (r : GmbProfileRaw) (newId : ObjectId) :
    DB × Except Err CreateResponse :=
  match parse_gmb_profile r with
  | .error e => (db, .error e)
  | .ok g => create_gmb_profile db g newId

/-- Did an `Except` computation succeed? -/
def isOkE : Except Err α → Bool
  | .ok _ => true
  | .error _ => false

/-! ## Concrete fixtures used by witnesses and counterexamples -/

/-- A well-formed ObjectId string, already in canonical lowercase form. -/
def oid_a : ObjectId := "aaaaaaaaaaaaaaaaaaaaaaaa"

/-- The same identifier written in uppercase hex: `bson.ObjectId` accepts it
and canonicalises it to `oid_a`. -/
def oid_a_upper : String := "AAAAAAAAAAAAAAAAAAAAAAAA"

/-- A second well-formed identifier, distinct from `oid_a`. -/
def oid_b : ObjectId := "bbbbbbbbbbbbbbbbbbbbbbbb"

/-- Identifier pool for store-assigned `_id`s of fixture documents. -/
def oid_1 : ObjectId := "111111111111111111111111"

/-- See `oid_1`. -/
def oid_2 : ObjectId := "222222222222222222222222"

/-- See `oid_1`. -/
def oid_3 : ObjectId := "333333333333333333333333"

/-- See `oid_1`. -/
def oid_4 : ObjectId := "444444444444444444444444"

/-- See `oid_1`. -/
def oid_5 : ObjectId := "555555555555555555555555"

/-- See `oid_1`. -/
def oid_6 : ObjectId := "666666666666666666666666"

/-- A stored client with identifier `oid_a`. -/
def clientAcme : ClientDoc := { _id := oid_a, name := "Acme" }

/-- A website of `clientAcme` (its `client_id` is `oid_a` in canonical
form). -/
def websiteAcme1 : WebsiteDoc :=
  { _id := oid_1, client_id := oid_a, url := "https://acme.example" }

/-- A second website of `clientAcme`. -/
def websiteAcme2 : WebsiteDoc :=
  { _id := oid_2, client_id := oid_a, url := "https://shop.acme.example" }

/-- SEO snapshot of `clientAcme` dated 2024-01-01 (inserted first). -/
def seoJan : SeoDoc :=
  { _id := oid_3, client_id := oid_a, date := some "2024-01-01" }

/-- SEO snapshot of `clientAcme` dated 2024-03-01 (inserted second). -/
def seoMar : SeoDoc :=
  { _id := oid_4, client_id := oid_a, date := some "2024-03-01" }

/-- SEO snapshot of `clientAcme` dated 2024-02-01 (inserted third). -/
def seoFeb : SeoDoc :=
  { _id := oid_5, client_id := oid_a, date := some "2024-02-01" }

/-- A GMB profile of `clientAcme`. -/
def gmbAcme : GmbDoc :=
  { _id := oid_6, client_id := oid_a, listing_name := some "Acme HQ" }

/-- Store holding `clientAcme` with 2 websites, 3 SEO snapshots (dated
2024-01-01, 2024-03-01, 2024-02-01 in insertion order) and 1 GMB profile. -/
def dbDetail : DB :=
  { client := [clientAcme],
    website := [websiteAcme1, websiteAcme2],
    seometric := [seoJan, seoMar, seoFeb],
    gmbprofile := [gmbAcme] }

/-- Store holding a website whose `client_id` is `oid_a` but no client at
all: its parent was never created (or already deleted). -/
def dbOrphan : DB := { website := [websiteAcme1] }

/-- Store holding `clientAcme` and one of its websites. -/
def dbAcmeSite : DB := { client := [clientAcme], website := [websiteAcme1] }

/-- Store holding `clientAcme` alone, with no dependent records. -/
def dbAcmeOnly : DB := { client := [clientAcme] }

/-- A fully populated client payload, used to exercise the round trip. -/
def cGlobex : Client :=
  { name := "Globex", contact_name := some "Jane Doe",
    email := some "jane@globex.example", phone := some "+1-555-0100",
    industry := some "retail", notes := some "vip" }

/-- A fully populated website payload for `clientAcme`. -/
def wGlobex : Website :=
  { client_id := oid_a, url := "https://globex.example",
    cms := some "WordPress", status := some "live", notes := some "new site" }

/-- A fully populated SEO metric payload for `clientAcme`. -/
def mGlobex : SeoMetric :=
  { client_id := oid_a, date := some "2024-04-01",
    organic_traffic := some 1200, keywords_top3 := some 3,
    keywords_top10 := some 10, domain_rating := some 55,
    notes := some "q2 snapshot" }

/-- A fully populated GMB profile payload for `clientAcme`. -/
def gGlobex : GmbProfile :=
  { client_id := oid_a, listing_name := some "Globex HQ",
    url := some "https://maps.example/globex", avg_rating := some 4,
    reviews_count := some 12, primary_category := some "Retail",
    notes := some "claimed" }

/-! ## Order facts about the date sort key -/

/-- Co-transitivity of the strict bytewise order: if `c < a` then for any `b`,
`c < b` or `b < a`. -/
theorem lexLt_cotrans (c : List Char) :
    ∀ a b : List Char, lexLt c a = true → lexLt c b = true ∨ lexLt b a = true := by
  induction c with
  | nil =>
    intro a b h
    cases a with
    | nil => simp [lexLt] at h
    | cons y ys =>
      cases b with
      | nil => right; simp [lexLt]
      | cons z zs => left; simp [lexLt]
  | cons x xs ih =>
    intro a b h
    cases a with
    | nil => simp [lexLt] at h
    | cons y ys =>
      cases b with
      | nil => right; simp [lexLt]
      | cons z zs =>
        simp only [lexLt, Bool.or_eq_true, Bool.and_eq_true,
          decide_eq_true_eq, beq_iff_eq] at h ⊢
        rcases h with h | ⟨hxy, hrec⟩
        · by_cases hz : x.toNat < z.toNat
          · left; left; exact hz
          · right; left; omega
        · by_cases hz : x.toNat < z.toNat
          · left; left; exact hz
          · by_cases hz2 : z.toNat < x.toNat
            · right; left; omega
            · have hxz : x.toNat = z.toNat := by omega
              rcases ih ys zs hrec with h2 | h2
              · left; right; exact ⟨hxz, h2⟩
              · right; right; exact ⟨by omega, h2⟩

/-- Asymmetry of the strict bytewise order. -/
theorem lexLt_asymm (a : List Char) :
    ∀ b : List Char, lexLt a b = true → lexLt b a = false := by
  induction a with
  | nil =>
    intro b h
    cases b with
    | nil => simp [lexLt] at h
    | cons z zs => simp [lexLt]
  | cons x xs ih =>
    intro b h
    cases b with
    | nil => simp [lexLt] at h
    | cons z zs =>
      simp only [lexLt, Bool.or_eq_true, Bool.and_eq_true,
        decide_eq_true_eq, beq_iff_eq] at h
      simp only [lexLt, Bool.or_eq_false_iff, Bool.and_eq_false_iff,
        decide_eq_false_iff_not, beq_eq_false_iff_ne, ne_eq]
      rcases h with h | ⟨hxz, hrec⟩
      · constructor
        · omega
        · left; omega
      · constructor
        · omega
        · right; exact ih zs hrec

/-- The descending-date relation on `seometric` documents is total. -/
instance : IsTotal SeoDoc seoDescRel := by
  constructor
  intro s t
  unfold seoDescRel dateLeb
  rcases s.date with _ | a <;> rcases t.date with _ | b
  · left; rfl
  · right; rfl
  · left; rfl
  · by_cases h : lexLt a.data b.data = true
    · right; simp [lexLt_asymm _ _ h]
    · left; simp [Bool.eq_false_iff.mpr h]

/-- The descending-date relation on `seometric` documents is transitive. -/
instance : IsTrans SeoDoc seoDescRel := by
  constructor
  intro s t u hst htu
  unfold seoDescRel dateLeb at hst htu ⊢
  rcases hs : s.date with _ | a <;> rcases ht : t.date with _ | b <;>
    rcases hu : u.date with _ | c <;> simp [hs, ht, hu] at hst htu ⊢
  cases hac : lexLt a.data c.data with
  | false => rfl
  | true =>
    rcases lexLt_cotrans a.data c.data b.data hac with h | h
    · simp_all
    · simp_all

/-! ## C1 — cascade deletion runs even when the parent delete matched nothing -/

/-- C1: for every `deleteClient` call whose identifier parses but matches no
stored Client, the cascade deletion of the `website`, `seometric` and
`gmbprofile` records whose `client_id` equals the given identifier string is
still performed, and the call then fails with 404 (`ReferenceNotFound`): the
store is mutated (dependents removed, client collection untouched) by a call
that reports failure. -/
theorem delete_client_cascades_despite_missing_parent
    (db : DB) (s : String) (cid : ObjectId)
    (hparse : to_object_id s = .ok cid)
    (hmiss : db.client.any (fun c => c._id == cid) = false) :
    (delete_client db s).2 = .error ⟨404, "Client not found"⟩ ∧
    (delete_client db s).1 =
      { client := db.client,
        website := db.website.filter (fun w => !(w.client_id == s)),
        seometric := db.seometric.filter (fun m => !(m.client_id == s)),
        gmbprofile := db.gmbprofile.filter (fun g => !(g.client_id == s)) } := by
  have herase : db.client.eraseP (fun c => c._id == cid) = db.client := by
    refine List.eraseP_of_forall_not ?_
    intro a ha
    have := (List.any_eq_false.mp hmiss) a ha
    simpa using this
  unfold delete_client
  rw [hparse]
  simp [hmiss, herase]

/-- Witness for C1 at a concrete store: no client exists, yet deleting
`oid_a` wipes the orphaned website referencing it and reports 404. -/
theorem delete_client_cascades_despite_missing_parent_witness :
    to_object_id oid_a = .ok oid_a ∧
    dbOrphan.client.any (fun c => c._id == oid_a) = false ∧
    (delete_client dbOrphan oid_a).2 = .error ⟨404, "Client not found"⟩ ∧
    dbOrphan.website = [websiteAcme1] ∧
    (delete_client dbOrphan oid_a).1.website = [] :=
  ⟨by decide, by decide,
   (delete_client_cascades_despite_missing_parent dbOrphan oid_a oid_a
      (by decide) (by decide)).1,
   by decide, by decide⟩

/-! ## C2 — which dependents does the cascade match? -/

/-- Counterexample to C2: `oid_a_upper` and `oid_a` parse to the same store
identifier (canonical text form `oid_a`), and `websiteAcme1.client_id` equals
that canonical form, yet deleting via the uppercase spelling leaves the
website in place while deleting via the lowercase spelling removes it — the
cascade compares the raw request string, not the canonical form, so two
spellings of the same identifier delete different dependent sets. -/
theorem delete_client_cascade_canonical_counterexample :
    to_object_id oid_a_upper = .ok oid_a ∧
    to_object_id oid_a = .ok oid_a ∧
    oidToString oid_a = oid_a ∧
    websiteAcme1.client_id = oid_a ∧
    (delete_client dbAcmeSite oid_a_upper).2 = .ok ⟨true⟩ ∧
    (delete_client dbAcmeSite oid_a_upper).1.website = [websiteAcme1] ∧
    (delete_client dbAcmeSite oid_a).1.website = [] := by
  refine ⟨by decide, by decide, by decide, by decide, ?_, ?_, ?_⟩ <;> decide

/-- C2 (amended): the dependents removed by `deleteClient` are exactly the
`website`, `seometric` and `gmbprofile` records whose stored `client_id`
equals the given identifier string verbatim — not its canonical text form. -/
theorem delete_client_cascade_matches_raw_string
    (db : DB) (s : String) (cid : ObjectId)
    (hparse : to_object_id s = .ok cid) :
    (delete_client db s).1.website =
      db.website.filter (fun w => !(w.client_id == s)) ∧
    (delete_client db s).1.seometric =
      db.seometric.filter (fun m => !(m.client_id == s)) ∧
    (delete_client db s).1.gmbprofile =
      db.gmbprofile.filter (fun g => !(g.client_id == s)) := by
  unfold delete_client
  rw [hparse]
  by_cases h : db.client.any (fun c => c._id == cid) = true <;>
    simp [h]

/-- Witness for the amended C2: deleting `clientAcme` via the canonical
spelling removes exactly the website whose `client_id` is that string. -/
theorem delete_client_cascade_matches_raw_string_witness :
    to_object_id oid_a = .ok oid_a ∧
    (delete_client dbAcmeSite oid_a).1.website = [] ∧
    (delete_client dbAcmeSite oid_a).1.seometric = [] ∧
    (delete_client dbAcmeSite oid_a).1.gmbprofile = [] :=
  ⟨by decide,
   by
    have h := delete_client_cascade_matches_raw_string dbAcmeSite oid_a oid_a
      (by decide)
    exact h.1.trans (by decide),
   by decide, by decide⟩

/-! ## C3 — dependent creation requires an existing parent -/

/-- C3: for every Website, SeoMetric or GmbProfile creation whose `client_id`
parses but matches no stored Client, the operation fails with 404
(`ReferenceNotFound`) and the store is returned unchanged — no document of
any kind is written. -/
theorem create_dependent_missing_parent_404
    (db : DB) (w : Website) (m : SeoMetric) (g : GmbProfile) (newId : ObjectId)
    (cw cm cg : ObjectId)
    (hw : to_object_id w.client_id = .ok cw)
    (hwn : db.client.any (fun c => c._id == cw) = false)
    (hm : to_object_id m.client_id = .ok cm)
    (hmn : db.client.any (fun c => c._id == cm) = false)
    (hg : to_object_id g.client_id = .ok cg)
    (hgn : db.client.any (fun c => c._id == cg) = false) :
    create_website db w newId = (db, .error ⟨404, "Client not found"⟩) ∧
    create_seo_metric db m newId = (db, .error ⟨404, "Client not found"⟩) ∧
    create_gmb_profile db g newId = (db, .error ⟨404, "Client not found"⟩) := by
  refine ⟨?_, ?_, ?_⟩
  · unfold create_website
    rw [hw]
    simp [hwn]
  · unfold create_seo_metric
    rw [hm]
    simp [hmn]
  · unfold create_gmb_profile
    rw [hg]
    simp [hgn]

/-- Witness for C3: `oid_b` is well-formed but not the id of any stored
client of `dbDetail`; all three creations fail with 404 and leave the store
as it was. -/
theorem create_dependent_missing_parent_404_witness :
    to_object_id oid_b = .ok oid_b ∧
    dbDetail.client.any (fun c => c._id == oid_b) = false ∧
    create_website dbDetail { client_id := oid_b, url := "https://x.example" }
        oid_1 = (dbDetail, .error ⟨404, "Client not found"⟩) ∧
    create_seo_metric dbDetail { client_id := oid_b } oid_2 =
      (dbDetail, .error ⟨404, "Client not found"⟩) ∧
    create_gmb_profile dbDetail { client_id := oid_b } oid_3 =
      (dbDetail, .error ⟨404, "Client not found"⟩) := by
  have h := create_dependent_missing_parent_404 dbDetail
    { client_id := oid_b, url := "https://x.example" }
    { client_id := oid_b } { client_id := oid_b } oid_1 oid_b oid_b oid_b
    (by decide) (by decide) (by decide) (by decide) (by decide) (by decide)
  exact ⟨by decide, by decide, h.1, by decide, by decide⟩

/-! ## C4 — malformed `client_id` fails with 400 before any lookup -/

/-- C4: for every Website, SeoMetric or GmbProfile creation whose `client_id`
string is not a well-formed ObjectId, the operation fails with 400
(`MalformedIdentifier`) and the store is returned unchanged.  The statement
holds for an arbitrary store `db` — in particular for stores that do contain
clients — because `to_object_id` is evaluated before the `find_one`
existence lookup, so no lookup outcome can alter the result. -/
theorem create_dependent_malformed_id_400
    (db : DB) (w : Website) (m : SeoMetric) (g : GmbProfile) (newId : ObjectId)
    (hw : isValidObjectIdString w.client_id = false)
    (hm : isValidObjectIdString m.client_id = false)
    (hg : isValidObjectIdString g.client_id = false) :
    create_website db w newId = (db, .error ⟨400, "Invalid object id"⟩) ∧
    create_seo_metric db m newId = (db, .error ⟨400, "Invalid object id"⟩) ∧
    create_gmb_profile db g newId = (db, .error ⟨400, "Invalid object id"⟩) := by
  refine ⟨?_, ?_, ?_⟩
  · unfold create_website to_object_id
    simp [hw]
  · unfold create_seo_metric to_object_id
    simp [hm]
  · unfold create_gmb_profile to_object_id
    simp [hg]

/-- Witness for C4: `"not-a-hex-id"` is rejected with 400 by all three
creation endpoints, on a store that does contain a client. -/
theorem create_dependent_malformed_id_400_witness :
    isValidObjectIdString "not-a-hex-id" = false ∧
    dbDetail.client ≠ [] ∧
    create_website dbDetail
        { client_id := "not-a-hex-id", url := "https://x.example" } oid_1 =
      (dbDetail, .error ⟨400, "Invalid object id"⟩) ∧
    create_seo_metric dbDetail { client_id := "not-a-hex-id" } oid_2 =
      (dbDetail, .error ⟨400, "Invalid object id"⟩) ∧
    create_gmb_profile dbDetail { client_id := "not-a-hex-id" } oid_3 =
      (dbDetail, .error ⟨400, "Invalid object id"⟩) := by
  have h := create_dependent_malformed_id_400 dbDetail
    { client_id := "not-a-hex-id", url := "https://x.example" }
    { client_id := "not-a-hex-id" } { client_id := "not-a-hex-id" } oid_1
    (by decide) (by decide) (by decide)
  exact ⟨by decide, by decide, h.1, by decide, by decide⟩

/-! ## C5 — `getClientDetail` on an existing client -/

/-- C5: for every existing Client (looked up by a well-formed identifier
string), `get_client_detail` returns that Client (id stringified) together
with every `website` document whose `client_id` matches the request string,
every `gmbprofile` document whose `client_id` matches, and the `seometric`
documents whose `client_id` matches sorted by date descending: the returned
SEO list is a permutation of the matching snapshots and is pairwise ordered
most-recent-first. -/
theorem get_client_detail_on_existing_client
    (db : DB) (s : String) (cid : ObjectId) (c : ClientDoc)
    (hparse : to_object_id s = .ok cid)
    (hfind : db.client.find? (fun x => x._id == cid) = some c) :
    get_client_detail db s =
      .ok { client := { c with _id := oidToString c._id },
            websites := db.website.filter (fun w => w.client_id == s),
            seo := sortSeoByDateDesc
              (db.seometric.filter (fun m => m.client_id == s)),
            gmb := db.gmbprofile.filter (fun g => g.client_id == s) } ∧
    List.Sorted seoDescRel
      (sortSeoByDateDesc (db.seometric.filter (fun m => m.client_id == s))) ∧
    (sortSeoByDateDesc (db.seometric.filter (fun m => m.client_id == s))).Perm
      (db.seometric.filter (fun m => m.client_id == s)) := by
  refine ⟨?_, ?_, ?_⟩
  · unfold get_client_detail
    rw [hparse]
    dsimp only
    rw [hfind]
  · exact List.sorted_insertionSort seoDescRel _
  · exact List.perm_insertionSort seoDescRel _

/-- Witness for C5, the pinned scenario: a client with 2 websites, 3 SEO
snapshots inserted with dates 2024-01-01, 2024-03-01, 2024-02-01, and 1 GMB
profile; the detail returns 2/3/1 records with the SEO list reordered to
[2024-03-01, 2024-02-01, 2024-01-01]. -/
theorem get_client_detail_on_existing_client_witness :
    to_object_id oid_a = .ok oid_a ∧
    dbDetail.client.find? (fun x => x._id == oid_a) = some clientAcme ∧
    get_client_detail dbDetail oid_a =
      .ok { client := clientAcme,
            websites := [websiteAcme1, websiteAcme2],
            seo := [seoMar, seoFeb, seoJan],
            gmb := [gmbAcme] } ∧
    [seoMar, seoFeb, seoJan].map (fun m => m.date) =
      [some "2024-03-01", some "2024-02-01", some "2024-01-01"] :=
  ⟨by decide, by decide,
   by
    have h := (get_client_detail_on_existing_client dbDetail oid_a oid_a
      clientAcme (by decide) (by decide)).1
    exact h.trans (by decide),
   by decide⟩

/-! ## C6 — status codes of `GET /clients/{client_id}` -/

/-- Counterexample to C6: on an unparseable path identifier the endpoint does
not answer 404 — `to_object_id` raises 400 ("Invalid object id"), so the
malformed-identifier case and the no-such-client case yield different status
codes. -/
theorem get_client_detail_malformed_counterexample :
    get_client_detail { : DB} "xyz" = .error ⟨400, "Invalid object id"⟩ ∧
    (⟨400, "Invalid object id"⟩ : Err).status ≠ 404 := by
  refine ⟨by decide, by decide⟩

/-- C6 (amended): `GET /clients/{client_id}` fails with 404 when the
identifier is well-formed but no Client has it, and with 400 when the
identifier is malformed (the error propagated from `to_object_id` always has
status 400). -/
theorem get_client_detail_statuses (db : DB) (s : String) :
    (∀ e : Err, to_object_id s = .error e →
      get_client_detail db s = .error e ∧ e.status = 400) ∧
    (∀ cid : ObjectId, to_object_id s = .ok cid →
      db.client.find? (fun x => x._id == cid) = none →
      get_client_detail db s = .error ⟨404, "Client not found"⟩) := by
  constructor
  · intro e he
    have hstatus : e.status = 400 := by
      unfold to_object_id at he
      split at he
      · cases he
      · cases he
        rfl
    refine ⟨?_, hstatus⟩
    unfold get_client_detail
    rw [he]
  · intro cid hok hnone
    unfold get_client_detail
    rw [hok]
    dsimp only
    rw [hnone]

/-- Witness for the amended C6, both branches at concrete inputs: the
malformed string `"zz"` yields 400, the valid-but-absent `oid_b` yields
404. -/
theorem get_client_detail_statuses_witness :
    get_client_detail dbDetail "zz" = .error ⟨400, "Invalid object id"⟩ ∧
    get_client_detail dbDetail oid_b = .error ⟨404, "Client not found"⟩ :=
  ⟨((get_client_detail_statuses dbDetail "zz").1 ⟨400, "Invalid object id"⟩
      (by decide)).1,
   (get_client_detail_statuses dbDetail oid_b).2 oid_b (by decide) (by decide)⟩

/-! ## C7 — round trip: create then read returns every field unmodified -/

/-- C7: every field accepted at creation is returned unmodified (modulo
identifier stringification) by the corresponding read operation, for every
record kind.  For every valid Client payload, create followed by an
immediate list yields exactly the previous listing plus one record whose
fields equal the input and whose identifier is a non-empty string; and for
every accepted Website, SeoMetric and GmbProfile payload (its `client_id`
resolving to an existing client), create followed by `get_client_detail` on
that client returns a document whose fields all equal the input (the
`seometric` read additionally passes through `sortSeoByDateDesc`, a
permutation, which preserves the stored documents). -/
theorem create_then_read_round_trip
    (db : DB) (c : Client) (cNewId : ObjectId)
    (hvalid : isValidObjectIdString cNewId = true)
    (w : Website) (wNewId : ObjectId) (cidw : ObjectId) (cdocw : ClientDoc)
    (hwp : to_object_id w.client_id = .ok cidw)
    (hwf : db.client.find? (fun x => x._id == cidw) = some cdocw)
    (m : SeoMetric) (mNewId : ObjectId) (cidm : ObjectId) (cdocm : ClientDoc)
    (hmp : to_object_id m.client_id = .ok cidm)
    (hmf : db.client.find? (fun x => x._id == cidm) = some cdocm)
    (g : GmbProfile) (gNewId : ObjectId) (cidg : ObjectId) (cdocg : ClientDoc)
    (hgp : to_object_id g.client_id = .ok cidg)
    (hgf : db.client.find? (fun x => x._id == cidg) = some cdocg) :
    (create_client db c cNewId).2 = ⟨oidToString cNewId⟩ ∧
    list_clients (create_client db c cNewId).1 =
      list_clients db ++
        [{ _id := oidToString cNewId, name := c.name,
           contact_name := c.contact_name, email := c.email, phone := c.phone,
           industry := c.industry, notes := c.notes }] ∧
    oidToString cNewId ≠ "" ∧
    (create_website db w wNewId).2 = .ok ⟨oidToString wNewId⟩ ∧
    (∃ d : ClientDetail,
      get_client_detail (create_website db w wNewId).1 w.client_id = .ok d ∧
      ({ _id := wNewId, client_id := w.client_id, url := w.url, cms := w.cms,
         status := w.status, notes := w.notes } : WebsiteDoc) ∈ d.websites) ∧
    (create_seo_metric db m mNewId).2 = .ok ⟨oidToString mNewId⟩ ∧
    (∃ d : ClientDetail,
      get_client_detail (create_seo_metric db m mNewId).1 m.client_id =
        .ok d ∧
      ({ _id := mNewId, client_id := m.client_id, date := m.date,
         organic_traffic := m.organic_traffic,
         keywords_top3 := m.keywords_top3,
         keywords_top10 := m.keywords_top10,
         domain_rating := m.domain_rating, notes := m.notes } : SeoDoc)
        ∈ d.seo) ∧
    (create_gmb_profile db g gNewId).2 = .ok ⟨oidToString gNewId⟩ ∧
    ∃ d : ClientDetail,
      get_client_detail (create_gmb_profile db g gNewId).1 g.client_id =
        .ok d ∧
      ({ _id := gNewId, client_id := g.client_id,
         listing_name := g.listing_name, url := g.url,
         avg_rating := g.avg_rating, reviews_count := g.reviews_count,
         primary_category := g.primary_category,
         notes := g.notes } : GmbDoc) ∈ d.gmb := by
  have hexw : ∃ x, x ∈ db.client ∧ ((fun y => y._id == cidw) x) = true :=
    List.find?_isSome.mp (by rw [hwf]; rfl)
  have hanyw : db.client.any (fun x => x._id == cidw) = true :=
    List.any_eq_true.mpr (by simpa using hexw)
  have hexm : ∃ x, x ∈ db.client ∧ ((fun y => y._id == cidm) x) = true :=
    List.find?_isSome.mp (by rw [hmf]; rfl)
  have hanym : db.client.any (fun x => x._id == cidm) = true :=
    List.any_eq_true.mpr (by simpa using hexm)
  have hexg : ∃ x, x ∈ db.client ∧ ((fun y => y._id == cidg) x) = true :=
    List.find?_isSome.mp (by rw [hgf]; rfl)
  have hanyg : db.client.any (fun x => x._id == cidg) = true :=
    List.any_eq_true.mpr (by simpa using hexg)
  have hstepw : create_website db w wNewId =
      ({ db with website := db.website ++
          [{ _id := wNewId, client_id := w.client_id, url := w.url,
             cms := w.cms, status := w.status, notes := w.notes }] },
       .ok ⟨oidToString wNewId⟩) := by
    unfold create_website
    rw [hwp]
    dsimp only
    rw [hanyw]
    rfl
  have hstepm : create_seo_metric db m mNewId =
      ({ db with seometric := db.seometric ++
          [{ _id := mNewId, client_id := m.client_id, date := m.date,
             organic_traffic := m.organic_traffic,
             keywords_top3 := m.keywords_top3,
             keywords_top10 := m.keywords_top10,
             domain_rating := m.domain_rating, notes := m.notes }] },
       .ok ⟨oidToString mNewId⟩) := by
    unfold create_seo_metric
    rw [hmp]
    dsimp only
    rw [hanym]
    rfl
  have hstepg : create_gmb_profile db g gNewId =
      ({ db with gmbprofile := db.gmbprofile ++
          [{ _id := gNewId, client_id := g.client_id,
             listing_name := g.listing_name, url := g.url,
             avg_rating := g.avg_rating, reviews_count := g.reviews_count,
             primary_category := g.primary_category, notes := g.notes }] },
       .ok ⟨oidToString gNewId⟩) := by
    unfold create_gmb_profile
    rw [hgp]
    dsimp only
    rw [hanyg]
    rfl
  refine ⟨rfl, ?_, ?_, ?_, ?_, ?_, ?_, ?_, ?_⟩
  · simp [list_clients, create_client, create_document_client]
  · intro h
    unfold oidToString at h
    rw [h] at hvalid
    exact absurd hvalid (by decide)
  · rw [hstepw]
  · rw [hstepw]
    unfold get_client_detail
    rw [hwp]
    dsimp only
    rw [hwf]
    dsimp only
    refine ⟨_, rfl, ?_⟩
    simp [List.mem_filter]
  · rw [hstepm]
  · rw [hstepm]
    unfold get_client_detail
    rw [hmp]
    dsimp only
    rw [hmf]
    dsimp only
    refine ⟨_, rfl, ?_⟩
    unfold sortSeoByDateDesc
    refine (List.perm_insertionSort seoDescRel _).mem_iff.mpr ?_
    simp [List.mem_filter]
  · rw [hstepg]
  · rw [hstepg]
    unfold get_client_detail
    rw [hgp]
    dsimp only
    rw [hgf]
    dsimp only
    refine ⟨_, rfl, ?_⟩
    simp [List.mem_filter]

/-- Witness for C7: creating `cGlobex` in `dbDetail` then listing returns
both clients with every field of the input intact and a 24-character
identifier; creating `wGlobex`, `mGlobex` and `gGlobex` then reading the
client detail returns each new document with every field intact. -/
theorem create_then_read_round_trip_witness :
    isValidObjectIdString oid_b = true ∧
    list_clients (create_client dbDetail cGlobex oid_b).1 =
      [clientAcme,
       { _id := oid_b, name := "Globex", contact_name := some "Jane Doe",
         email := some "jane@globex.example", phone := some "+1-555-0100",
         industry := some "retail", notes := some "vip" }] ∧
    oid_b ≠ "" ∧
    (create_website dbDetail wGlobex oid_6).2 = .ok ⟨oid_6⟩ ∧
    (∃ d : ClientDetail,
      get_client_detail (create_website dbDetail wGlobex oid_6).1 oid_a =
        .ok d ∧
      ({ _id := oid_6, client_id := oid_a, url := "https://globex.example",
         cms := some "WordPress", status := some "live",
         notes := some "new site" } : WebsiteDoc) ∈ d.websites) ∧
    (create_seo_metric dbDetail mGlobex oid_4).2 = .ok ⟨oid_4⟩ ∧
    (∃ d : ClientDetail,
      get_client_detail (create_seo_metric dbDetail mGlobex oid_4).1 oid_a =
        .ok d ∧
      ({ _id := oid_4, client_id := oid_a, date := some "2024-04-01",
         organic_traffic := some 1200, keywords_top3 := some 3,
         keywords_top10 := some 10, domain_rating := some 55,
         notes := some "q2 snapshot" } : SeoDoc) ∈ d.seo) ∧
    (create_gmb_profile dbDetail gGlobex oid_5).2 = .ok ⟨oid_5⟩ ∧
    ∃ d : ClientDetail,
      get_client_detail (create_gmb_profile dbDetail gGlobex oid_5).1 oid_a =
        .ok d ∧
      ({ _id := oid_5, client_id := oid_a, listing_name := some "Globex HQ",
         url := some "https://maps.example/globex", avg_rating := some 4,
         reviews_count := some 12, primary_category := some "Retail",
         notes := some "claimed" } : GmbDoc) ∈ d.gmb := by
  have h := create_then_read_round_trip dbDetail cGlobex oid_b (by decide)
    wGlobex oid_6 oid_a clientAcme (by decide) (by decide)
    mGlobex oid_4 oid_a clientAcme (by decide) (by decide)
    gGlobex oid_5 oid_a clientAcme (by decide) (by decide)
  exact ⟨by decide, h.2.1.trans (by decide), h.2.2.1, h.2.2.2.1,
    h.2.2.2.2.1, h.2.2.2.2.2.1, h.2.2.2.2.2.2.1, h.2.2.2.2.2.2.2.1,
    h.2.2.2.2.2.2.2.2⟩

/-! ## C8 — what does a successful `deleteClient` return? -/

/-- Counterexample to C8: the success response of `delete_client` is the
constant `{"ok": true}` and carries no count.  Deleting `oid_a` from
`dbAcmeOnly` removes 1 document while deleting it from `dbAcmeSite` removes
2, yet the two calls return byte-identical responses — so the response
cannot report the number of records deleted. -/
theorem delete_client_no_count_counterexample :
    deleteClientCount dbAcmeOnly oid_a = 1 ∧
    deleteClientCount dbAcmeSite oid_a = 2 ∧
    (delete_client dbAcmeOnly oid_a).2 = .ok ⟨true⟩ ∧
    (delete_client dbAcmeSite oid_a).2 = .ok ⟨true⟩ := by
  refine ⟨?_, ?_, ?_, ?_⟩ <;> decide

/-- C8 (amended): `deleteClient` on a well-formed identifier returns success
`{"ok": true}` — carrying no count — when a Client with that identifier
existed prior to the call, and otherwise fails with 404
(`ReferenceNotFound`). -/
theorem delete_client_ok_or_404
    (db : DB) (s : String) (cid : ObjectId)
    (hparse : to_object_id s = .ok cid) :
    (db.client.any (fun c => c._id == cid) = true →
      (delete_client db s).2 = .ok ⟨true⟩) ∧
    (db.client.any (fun c => c._id == cid) = false →
      (delete_client db s).2 = .error ⟨404, "Client not found"⟩) := by
  unfold delete_client
  rw [hparse]
  constructor
  · intro h
    simp [h]
  · intro h
    simp [h]

/-- Witness for the amended C8, both branches: deleting the existing
`clientAcme` succeeds with `{"ok": true}`; deleting the absent `oid_b`
fails with 404. -/
theorem delete_client_ok_or_404_witness :
    (delete_client dbAcmeOnly oid_a).2 = .ok ⟨true⟩ ∧
    (delete_client dbAcmeOnly oid_b).2 = .error ⟨404, "Client not found"⟩ :=
  ⟨(delete_client_ok_or_404 dbAcmeOnly oid_a oid_a (by decide)).1 (by decide),
   (delete_client_ok_or_404 dbAcmeOnly oid_b oid_b (by decide)).2 (by decide)⟩

/-- An optional field passes its bound check iff every present value
satisfies the bound. -/
theorem optOk_eq_true {α} {p : α → Bool} {o : Option α} :
    optOk p o = true ↔ ∀ x ∈ o, p x = true := by
  cases o <;> simp [optOk]

/-! ## C9 — numeric range validation with boundary values -/

/-- C9: validation accepts a SeoMetric body iff every present numeric field
is in range (`organic_traffic`, `keywords_top3`, `keywords_top10` ≥ 0,
`domain_rating` in [0,100]), accepts a GmbProfile body iff `avg_rating` lies
in [0,5] and `reviews_count` ≥ 0; every rejection is a 422 validation error;
and the boundary values 0, 100 and 5 are accepted while 101, 6 and −1 are
rejected. -/
theorem numeric_range_validation :
    (∀ r : SeoMetricRaw, isOkE (parse_seo_metric r) = true ↔
      (∀ n ∈ r.organic_traffic, (0 : Int) ≤ n) ∧
      (∀ n ∈ r.keywords_top3, (0 : Int) ≤ n) ∧
      (∀ n ∈ r.keywords_top10, (0 : Int) ≤ n) ∧
      (∀ q ∈ r.domain_rating, (0 : ℚ) ≤ q ∧ q ≤ 100)) ∧
    (∀ r : GmbProfileRaw, isOkE (parse_gmb_profile r) = true ↔
      (∀ q ∈ r.avg_rating, (0 : ℚ) ≤ q ∧ q ≤ 5) ∧
      (∀ n ∈ r.reviews_count, (0 : Int) ≤ n)) ∧
    (∀ r : SeoMetricRaw, isOkE (parse_seo_metric r) = false →
      parse_seo_metric r = .error ⟨422, "validation error"⟩) ∧
    (∀ r : GmbProfileRaw, isOkE (parse_gmb_profile r) = false →
      parse_gmb_profile r = .error ⟨422, "validation error"⟩) ∧
    isOkE (parse_seo_metric
      { client_id := oid_a, organic_traffic := some 0,
        keywords_top3 := some 0, keywords_top10 := some 0,
        domain_rating := some 100 }) = true ∧
    isOkE (parse_seo_metric
      { client_id := oid_a, domain_rating := some 0 }) = true ∧
    isOkE (parse_gmb_profile
      { client_id := oid_a, avg_rating := some 5,
        reviews_count := some 0 }) = true ∧
    isOkE (parse_gmb_profile
      { client_id := oid_a, avg_rating := some 0 }) = true ∧
    isOkE (parse_seo_metric
      { client_id := oid_a, domain_rating := some 101 }) = false ∧
    isOkE (parse_seo_metric
      { client_id := oid_a, organic_traffic := some (-1) }) = false ∧
    isOkE (parse_seo_metric
      { client_id := oid_a, keywords_top3 := some (-1) }) = false ∧
    isOkE (parse_seo_metric
      { client_id := oid_a, keywords_top10 := some (-1) }) = false ∧
    isOkE (parse_gmb_profile
      { client_id := oid_a, avg_rating := some 6 }) = false ∧
    isOkE (parse_gmb_profile
      { client_id := oid_a, reviews_count := some (-1) }) = false := by
  refine ⟨?_, ?_, ?_, ?_, ?_, ?_, ?_, ?_, ?_, ?_, ?_, ?_, ?_, ?_⟩
  · intro r
    unfold parse_seo_metric checkExtra schemaExtraPolicy
    dsimp only
    split
    · rename_i hC
      simp only [Bool.and_eq_true, optOk_eq_true, decide_eq_true_eq] at hC
      simp only [isOkE]
      exact iff_of_true trivial ⟨hC.1.1.1, hC.1.1.2, hC.1.2, hC.2⟩
    · rename_i hC
      simp only [isOkE, Bool.false_eq_true, false_iff]
      intro hP
      apply hC
      simp only [Bool.and_eq_true, optOk_eq_true, decide_eq_true_eq]
      exact ⟨⟨⟨hP.1, hP.2.1⟩, hP.2.2.1⟩, hP.2.2.2⟩
  · intro r
    unfold parse_gmb_profile checkExtra schemaExtraPolicy
    dsimp only
    split
    · rename_i hC
      simp only [Bool.and_eq_true, optOk_eq_true, decide_eq_true_eq] at hC
      simp only [isOkE]
      exact iff_of_true trivial ⟨hC.1, hC.2⟩
    · rename_i hC
      simp only [isOkE, Bool.false_eq_true, false_iff]
      intro hP
      apply hC
      simp only [Bool.and_eq_true, optOk_eq_true, decide_eq_true_eq]
      exact ⟨hP.1, hP.2⟩
  · intro r h
    unfold parse_seo_metric checkExtra schemaExtraPolicy at h ⊢
    dsimp only at h ⊢
    split
    · rename_i hC
      rw [if_pos hC] at h
      simp [isOkE] at h
    · rfl
  · intro r h
    unfold parse_gmb_profile checkExtra schemaExtraPolicy at h ⊢
    dsimp only at h ⊢
    split
    · rename_i hC
      rw [if_pos hC] at h
      simp [isOkE] at h
    · rfl
  all_goals decide

/-- Witness for C9: a `domain_rating` of 101 is rejected by validation with
a 422 error. -/
theorem numeric_range_validation_witness :
    parse_seo_metric { client_id := oid_a, domain_rating := some 101 } =
      .error ⟨422, "validation error"⟩ :=
  numeric_range_validation.2.2.1
    { client_id := oid_a, domain_rating := some 101 } (by decide)

/-! ## C10 — undeclared body fields are silently ignored -/

/-- C10: for every creation body of any of the four record kinds, fields not
declared in the schema are silently ignored: the end-to-end POST handler
behaves identically on a body with undeclared fields and on the same body
with them removed (same store, same response — so they are neither rejected
nor persisted), a Client body always validates to the model holding exactly
the declared fields, and this hinges on pydantic's default policy — under
`ignoreThem` every extra list passes, whereas `forbidThem` would reject any
body carrying an undeclared field with a 422 validation error. -/
theorem extra_fields_silently_ignored
    (db : DB) (newId : ObjectId) (rcb : ClientRaw) (rwb : WebsiteRaw)
    (rsb : SeoMetricRaw) (rgb : GmbProfileRaw) :
    post_clients db rcb newId = post_clients db { rcb with extra := [] } newId ∧
    post_websites db rwb newId =
      post_websites db { rwb with extra := [] } newId ∧
    post_seo db rsb newId = post_seo db { rsb with extra := [] } newId ∧
    post_gmb db rgb newId = post_gmb db { rgb with extra := [] } newId ∧
    parse_client rcb = .ok
      { name := rcb.name, contact_name := rcb.contact_name,
        email := rcb.email, phone := rcb.phone, industry := rcb.industry,
        notes := rcb.notes } ∧
    (∀ e : List (String × String), checkExtra .ignoreThem e = .ok ()) ∧
    (∀ kv : String × String, ∀ e : List (String × String),
      checkExtra .forbidThem (kv :: e) = .error ⟨422, "validation error"⟩) :=
  ⟨rfl, rfl, rfl, rfl, rfl, fun _ => rfl, fun _ _ => rfl⟩

/-- Witness for C10: a SeoMetric body carrying the undeclared field
`unknown_field` produces exactly the store and response of the cleaned body,
and succeeds. -/
theorem extra_fields_silently_ignored_witness :
    post_seo dbDetail
        { client_id := oid_a, organic_traffic := some 10,
          extra := [("unknown_field", "1")] } oid_6 =
      post_seo dbDetail
        { client_id := oid_a, organic_traffic := some 10, extra := [] }
        oid_6 ∧
    (post_seo dbDetail
        { client_id := oid_a, organic_traffic := some 10,
          extra := [("unknown_field", "1")] } oid_6).2 = .ok ⟨oid_6⟩ :=
  ⟨(extra_fields_silently_ignored dbDetail oid_6 { name := "x" }
      { client_id := oid_a, url := "https://x.example" }
      { client_id := oid_a, organic_traffic := some 10,
        extra := [("unknown_field", "1")] }
      { client_id := oid_a }).2.2.1,
   by decide⟩
